import Mathlib

/-!
Verification of the toolforest tool runtime against its specification.

This file shallowly embeds the core of the repository:

* `mcp_lambda_runtime/context.py`  — the per-call invocation context
  (a Python `ContextVar` holding a `RequestContext(user_jwt : str)`);
* `mcp_lambda_runtime/registry.py` — `ToolSpec` and `ToolRegistry`;
* `mcp_lambda_runtime/handler.py`  — the dispatch handler;
* `mcp_remote_toolsets/registry.py` — `load_registry` (service directory reader);
* `mcp_remote_toolsets/proxies.py`  — `_invoke_lambda` (retried transport) and
  `load_toolset_proxies` (remote proxy builder);
* `toolsets/math/src/lambda_handler.py` — the math toolset (`add`, `whoami`).

Modelling conventions:

* JSON values are the inductive `Json` below; Python dicts are association
  lists looked up by first match (dict keys are unique, so this agrees with
  dict semantics).  Python floats are modelled as rationals (every numeric
  value appearing in the claims is exact).
* A Python exception in flight is `Exn`: either a typed `RpcError(type, message)`
  or any other exception carrying its `str(e)` message.
* Fallible code returns `Except`; the pydantic layer of a tool
  (`params_model(**raw)`, `isinstance(result, result_model)`, `model_dump`)
  is abstracted into the `validate` / `resultOk` fields of `ToolSpec`,
  with the validated params and the dumped result both represented as `Json`.
* The `ContextVar` of `context.py` stores, per execution context (thread /
  task), a `RequestContext`; single-threaded code is modelled by explicit
  state passing of the current execution context's value, and the
  concurrent case by a map from thread id to stored value (Python
  `contextvars` gives each thread / task its own storage).
-/

/-- A JSON value (also standing for the Python objects the runtime passes
around: dicts, lists, strings, numbers, booleans, `None`). -/
inductive Json where
  | null : Json
  | bool (b : Bool) : Json
  | num (q : ℚ) : Json
  | str (s : String) : Json
  | arr (elems : List Json) : Json
  | obj (fields : List (String × Json)) : Json
  deriving Repr

mutual

/-- Decidable equality on `Json` (the automatic derivation does not handle
the nesting through lists). -/
def Json.decEq : (a b : Json) → Decidable (a = b)
  | .null, .null => .isTrue rfl
  | .bool x, .bool y =>
    if h : x = y then .isTrue (congrArg Json.bool h)
    else .isFalse (fun c => h (Json.bool.inj c))
  | .num x, .num y =>
    if h : x = y then .isTrue (congrArg Json.num h)
    else .isFalse (fun c => h (Json.num.inj c))
  | .str x, .str y =>
    if h : x = y then .isTrue (congrArg Json.str h)
    else .isFalse (fun c => h (Json.str.inj c))
  | .arr x, .arr y =>
    match Json.decEqList x y with
    | .isTrue h => .isTrue (congrArg Json.arr h)
    | .isFalse h => .isFalse (fun c => h (Json.arr.inj c))
  | .obj x, .obj y =>
    match Json.decEqFields x y with
    | .isTrue h => .isTrue (congrArg Json.obj h)
    | .isFalse h => .isFalse (fun c => h (Json.obj.inj c))
  | .null, .bool _ => .isFalse nofun
  | .null, .num _ => .isFalse nofun
  | .null, .str _ => .isFalse nofun
  | .null, .arr _ => .isFalse nofun
  | .null, .obj _ => .isFalse nofun
  | .bool _, .null => .isFalse nofun
  | .bool _, .num _ => .isFalse nofun
  | .bool _, .str _ => .isFalse nofun
  | .bool _, .arr _ => .isFalse nofun
  | .bool _, .obj _ => .isFalse nofun
  | .num _, .null => .isFalse nofun
  | .num _, .bool _ => .isFalse nofun
  | .num _, .str _ => .isFalse nofun
  | .num _, .arr _ => .isFalse nofun
  | .num _, .obj _ => .isFalse nofun
  | .str _, .null => .isFalse nofun
  | .str _, .bool _ => .isFalse nofun
  | .str _, .num _ => .isFalse nofun
  | .str _, .arr _ => .isFalse nofun
  | .str _, .obj _ => .isFalse nofun
  | .arr _, .null => .isFalse nofun
  | .arr _, .bool _ => .isFalse nofun
  | .arr _, .num _ => .isFalse nofun
  | .arr _, .str _ => .isFalse nofun
  | .arr _, .obj _ => .isFalse nofun
  | .obj _, .null => .isFalse nofun
  | .obj _, .bool _ => .isFalse nofun
  | .obj _, .num _ => .isFalse nofun
  | .obj _, .str _ => .isFalse nofun
  | .obj _, .arr _ => .isFalse nofun

/-- Decidable equality on lists of `Json`. -/
def Json.decEqList : (a b : List Json) → Decidable (a = b)
  | [], [] => .isTrue rfl
  | [], _ :: _ => .isFalse nofun
  | _ :: _, [] => .isFalse nofun
  | x :: xs, y :: ys =>
    match Json.decEq x y, Json.decEqList xs ys with
    | .isTrue h1, .isTrue h2 => .isTrue (by rw [h1, h2])
    | .isFalse h1, _ => .isFalse (fun c => h1 (List.head_eq_of_cons_eq c))
    | _, .isFalse h2 => .isFalse (fun c => h2 (List.tail_eq_of_cons_eq c))

/-- Decidable equality on dict field lists. -/
def Json.decEqFields : (a b : List (String × Json)) → Decidable (a = b)
  | [], [] => .isTrue rfl
  | [], _ :: _ => .isFalse nofun
  | _ :: _, [] => .isFalse nofun
  | (k1, v1) :: xs, (k2, v2) :: ys =>
    if h1 : k1 = k2 then
      match Json.decEq v1 v2, Json.decEqFields xs ys with
      | .isTrue h2, .isTrue h3 => .isTrue (by rw [h1, h2, h3])
      | .isFalse h2, _ =>
        .isFalse (fun c => h2 (congrArg Prod.snd (List.head_eq_of_cons_eq c)))
      | _, .isFalse h3 => .isFalse (fun c => h3 (List.tail_eq_of_cons_eq c))
    else
      .isFalse (fun c => h1 (congrArg Prod.fst (List.head_eq_of_cons_eq c)))

end

instance : DecidableEq Json := Json.decEq

namespace Json

/-- Dict lookup (`d[k]` / `d.get(k)` on a dict): first binding for the key;
`none` on a non-dict or a missing key. -/
def lookup : Json → String → Option Json
  | .obj fields, k => (fields.find? (fun p => p.1 = k)).map (fun p => p.2)
  | _, _ => none

/-- `d.get(k, default)`. -/
def getD (j : Json) (k : String) (default : Json) : Json :=
  (j.lookup k).getD default

/-- Python truthiness: `None`, `False`, `0`, `""`, `[]`, `{}` are falsy. -/
def truthy : Json → Bool
  | .null => false
  | .bool b => b
  | .num q => q != 0
  | .str s => s != ""
  | .arr elems => !elems.isEmpty
  | .obj fields => !fields.isEmpty

/-- `k in d` for a dict; `false` on non-dicts (the runtime only applies it to
decoded response envelopes, which are JSON objects). -/
def hasKey (j : Json) (k : String) : Bool :=
  (j.lookup k).isSome

/-- Python `str(x)` for the values the runtime stringifies.  Exact for
strings, `None` and booleans; numbers and containers get a definite
rendering (no claim depends on those cases). -/
def pyStr : Json → String
  | .null => "None"
  | .bool true => "True"
  | .bool false => "False"
  | .num q => toString q
  | .str s => s
  | .arr _ => "[...]"
  | .obj _ => "\x7b...\x7d"

end Json

/-! ## `context.py` — the invocation context

```python
@dataclass
class RequestContext:
    user_jwt: str = ""

_current_context: ContextVar[RequestContext] = ContextVar(..., default=RequestContext())

def set_request_context(ctx): _current_context.set(ctx)
def get_request_context():   return _current_context.get()
def get_user_jwt():          return _current_context.get().user_jwt
```

A `ContextVar` holds one value per execution context.  For the sequential
claims the state is the current execution context's stored value. -/

/-- `RequestContext` — the per-call carrier; `user_jwt` defaults to `""`. -/
structure RequestContext where
  user_jwt : String := ""
  deriving DecidableEq, Repr

/-- The `ContextVar`'s default: `RequestContext()` (empty token). -/
def defaultRequestContext : RequestContext := {}

/-- `set_request_context(ctx)`: replaces the current execution context's
stored value. -/
def set_request_context (_old : RequestContext) (ctx : RequestContext) : RequestContext :=
  ctx

/-- `get_request_context()`. -/
def get_request_context (st : RequestContext) : RequestContext := st

/-- `get_user_jwt()`: reads the current execution context's stored token. -/
def get_user_jwt (st : RequestContext) : String :=
  (get_request_context st).user_jwt

/-! ## `registry.py` — `ToolSpec` and `ToolRegistry` -/

/-- `ToolSpec` — one registrable tool.  `validate` is `params_model(**raw)`
(`.error` = the `ValidationError` diagnostics `ve.json()`), `func` is the
implementation (its first argument is the ambient `user_jwt` it may read via
`get_user_jwt`; `.error` = an uncaught exception's `str(e)`); the returned
`Json` is the dumped result-model instance, and `resultOk` is
`isinstance(result, spec.result_model)`. -/
structure ToolSpec where
  name : String
  doc : String
  params_schema : Json
  result_schema : Json
  validate : Json → Except String Json
  func : String → Json → Except String Json
  resultOk : Json → Bool

/-- `ToolRegistry` — `_tools` is an insertion-ordered dict `name → ToolSpec`
plus toolset identity metadata. -/
structure ToolRegistry where
  tools : List (String × ToolSpec) := []
  toolset_name : Option String := none
  toolset_version : Option String := none

/-- Is a name already registered? (`spec.name in self._tools`). -/
def ToolRegistry.hasName (r : ToolRegistry) (name : String) : Bool :=
  r.tools.any (fun p => p.1 = name)

/-- `ToolRegistry.register`:

```python
def register(self, spec):
    if spec.name in self._tools:
        raise ValueError(f"Tool '{spec.name}' already registered")
    self._tools[spec.name] = spec
```

Returned pair: (raised exception if any, the registry state after the call —
the `raise` happens before any mutation, so on a duplicate the state is the
original one). -/
def ToolRegistry.registerRun (r : ToolRegistry) (spec : ToolSpec) :
    Except String Unit × ToolRegistry :=
  if r.hasName spec.name then
    (.error ("Tool \x27" ++ spec.name ++ "\x27 already registered"), r)
  else
    (.ok (), { r with tools := r.tools ++ [(spec.name, spec)] })

/-- `ToolRegistry.get_tool`: raises `KeyError(name)` if absent.  Python's
`str(KeyError(name))` is the name wrapped in single quotes — that string is
what a generic `except Exception` handler sees as the message. -/
def ToolRegistry.get_tool (r : ToolRegistry) (name : String) : Except String ToolSpec :=
  match r.tools.find? (fun p => p.1 = name) with
  | some p => .ok p.2
  | none => .error ("\x27" ++ name ++ "\x27")

/-- `ToolRegistry.describe`: one descriptor per registered spec, in
registration order. -/
def ToolRegistry.describe (r : ToolRegistry) : List Json :=
  r.tools.map (fun p =>
    Json.obj [("name", .str p.2.name), ("doc", .str p.2.doc),
              ("params_schema", p.2.params_schema),
              ("result_schema", p.2.result_schema)])

/-! ## `handler.py` — the dispatch handler -/

/-- A Python exception in flight inside the handler: a typed
`RpcError(error_type, message)` or any other exception with its `str(e)`. -/
inductive Exn where
  | rpc (type message : String) : Exn
  | py (message : String) : Exn
  deriving DecidableEq, Repr

/-- `_response(result=...)`. -/
def responseOk (result : Json) : Json := .obj [("result", result)]

/-- `_response(error={"type": t, "message": m})`. -/
def responseErr (type message : String) : Json :=
  .obj [("error", .obj [("type", .str type), ("message", .str message)])]

/-- Python `opt or default` for an optional string attribute
(`registry.toolset_name or "unknown"`): the default replaces both `None`
and the falsy `""`. -/
def pyOrStr (opt : Option String) (default : String) : String :=
  match opt with
  | some s => if s = "" then default else s
  | none => default

/-- Extraction of the caller token from the envelope:

```python
user_jwt = ""
ctx = event.get("context") or {}
if isinstance(ctx, dict):
    user_jwt = str(ctx.get("user_jwt") or "")
```
-/
def extractUserJwt (event : Json) : String :=
  let ctx := let c := event.getD "context" .null
             if c.truthy then c else .obj []
  match ctx with
  | .obj _ =>
    let v := ctx.getD "user_jwt" .null
    if v.truthy then v.pyStr else ""
  | _ => ""

/-- The `try:` body of `handler` — everything between establishing the
context and the `except` clauses.  `nowIso` is the formatted current time
used for `manifest_version`, `jwt` the just-established context value
(which a tool's `func` may read). -/
def handlerCore (registry : ToolRegistry) (nowIso : String) (jwt : String)
    (event : Json) : Except Exn Json :=
  let action := event.getD "action" .null
  if action = .str "describe_tools" then
    .ok (.obj [("toolset", .str (pyOrStr registry.toolset_name "unknown")),
               ("toolset_version", .str (pyOrStr registry.toolset_version "0.0.0")),
               ("manifest_version", .str nowIso),
               ("tools", .arr registry.describe)])
  else if action = .str "invoke" then
    match event.getD "method" .null with
    | .str method =>
      match registry.get_tool method with
      | .error msg => .error (.py msg)     -- `KeyError` from `get_tool`
      | .ok spec =>
        match event.getD "params" (.obj []) with
        | .obj rawFields =>
          match spec.validate (.obj rawFields) with
          | .error diagnostics => .error (.rpc "ValidationError" diagnostics)
          | .ok validated =>
            match spec.func jwt validated with
            | .error exnMsg => .error (.py exnMsg)
            | .ok result =>
              if spec.resultOk result then .ok result
              else .error (.rpc "InternalError" "Tool returned wrong result type")
        | _ => .error (.rpc "BadRequest" "\x27params\x27 must be an object")
    | _ => .error (.rpc "BadRequest" "\x27method\x27 must be a string")
  else
    .error (.rpc "BadRequest" "Unknown action")

/-- `handler(event, context)`: establishes the invocation context from the
envelope, runs the core, converts `RpcError` to its own envelope and every
other exception to `InternalError` (the telemetry `print` in `finally` has
no effect on the returned value).  The second component is the
`ContextVar`'s value in this execution context after the call — the
handler never restores or clears it. -/
def handler (registry : ToolRegistry) (nowIso : String) (event : Json)
    (st : RequestContext) : Json × RequestContext :=
  let st := set_request_context st { user_jwt := extractUserJwt event }
  match handlerCore registry nowIso st.user_jwt event with
  | .ok result => (responseOk result, st)
  | .error (.rpc t m) => (responseErr t m, st)
  | .error (.py m) => (responseErr "InternalError" m, st)

/-- The `type` of a response envelope's error member, when it has one. -/
def respErrorType (resp : Json) : Option Json :=
  (resp.lookup "error").bind (fun e => e.lookup "type")

/-! ## `toolsets/math/src/lambda_handler.py` — the math toolset

Import-time effects: `@tool def add`, `@tool def whoami` register the two
specs (in that order) in the process-wide registry, then
`toolset_name = "math"`, `toolset_version = "0.1.0"` are set. -/

/-- `AddParams(**raw)` — pydantic validation of `{x: float, y: float}`:
both fields required, numeric (floats modelled as rationals); extra fields
are ignored (pydantic's default); on failure the diagnostics `ve.json()`
are modelled by a fixed message. -/
def addValidate (raw : Json) : Except String Json :=
  match raw.lookup "x", raw.lookup "y" with
  | some (.num x), some (.num y) => .ok (.obj [("x", .num x), ("y", .num y)])
  | _, _ => .error "validation error for AddParams: x and y must be numbers"

/-- `add(params)`: `AddResult(value=params.x + params.y)`, dumped. -/
def add (_jwt : String) (params : Json) : Except String Json :=
  match params.lookup "x", params.lookup "y" with
  | some (.num x), some (.num y) => .ok (.obj [("value", .num (x + y))])
  | _, _ => .error "invalid AddParams instance"

/-- `isinstance(r, AddResult)` on the dumped value. -/
def addResultOk : Json → Bool
  | .obj [("value", .num _)] => true
  | _ => false

/-- `AddParams.model_json_schema()` (abridged: the fields no claim reads
are omitted). -/
def addParamsSchema : Json :=
  .obj [("type", .str "object"),
        ("properties", .obj [("x", .obj [("type", .str "number")]),
                             ("y", .obj [("type", .str "number")])]),
        ("required", .arr [.str "x", .str "y"]),
        ("title", .str "AddParams")]

/-- `AddResult.model_json_schema()` (abridged). -/
def addResultSchema : Json :=
  .obj [("type", .str "object"),
        ("properties", .obj [("value", .obj [("type", .str "number")])]),
        ("required", .arr [.str "value"]),
        ("title", .str "AddResult")]

/-- The `ToolSpec` registered for `add`. -/
def addSpec : ToolSpec :=
  { name := "add", doc := "Add two numbers.",
    params_schema := addParamsSchema, result_schema := addResultSchema,
    validate := addValidate, func := add, resultOk := addResultOk }

/-- `WhoAmIParams(**raw)` — a model with no fields: every object validates
(extra fields ignored). -/
def whoamiValidate (_raw : Json) : Except String Json := .ok (.obj [])

/-- `whoami(params)`: `WhoAmIResult(user_jwt=get_user_jwt())` — reads the
ambient invocation context. -/
def whoami (jwt : String) (_params : Json) : Except String Json :=
  .ok (.obj [("user_jwt", .str jwt)])

/-- `isinstance(r, WhoAmIResult)` on the dumped value. -/
def whoamiResultOk : Json → Bool
  | .obj [("user_jwt", .str _)] => true
  | _ => false

/-- `WhoAmIParams.model_json_schema()` (abridged). -/
def whoamiParamsSchema : Json :=
  .obj [("type", .str "object"), ("properties", .obj []),
        ("title", .str "WhoAmIParams")]

/-- `WhoAmIResult.model_json_schema()` (abridged). -/
def whoamiResultSchema : Json :=
  .obj [("type", .str "object"),
        ("properties", .obj [("user_jwt", .obj [("type", .str "string")])]),
        ("title", .str "WhoAmIResult")]

/-- The `ToolSpec` registered for `whoami`. -/
def whoamiSpec : ToolSpec :=
  { name := "whoami", doc := "Return the propagated user JWT for validation.",
    params_schema := whoamiParamsSchema, result_schema := whoamiResultSchema,
    validate := whoamiValidate, func := whoami, resultOk := whoamiResultOk }

/-- The registry as it stands after importing the math toolset module:
`add` and `whoami` registered in order, metadata set. -/
def mathRegistry : ToolRegistry :=
  { tools := [("add", addSpec), ("whoami", whoamiSpec)],
    toolset_name := some "math", toolset_version := some "0.1.0" }

/-! ## `mcp_remote_toolsets/registry.py` — `load_registry`

```python
for page in paginator.paginate(...):
    for param in page.get("Parameters", []):
        try:
            value = param["Value"]
            entries.append(json.loads(value))
        except Exception:
            continue
return entries
```

`pages` is the paginator's output (each page's parameter list); `decode`
models `json.loads` (`none` = it raises). -/

/-- One loop body over a parameter object: the entry it contributes, or
`none` when the `try` block raises (missing / non-string `"Value"`, or a
value `json.loads` rejects) and the loop `continue`s. -/
def parseParam (decode : String → Option Json) (param : Json) : Option Json :=
  match param.lookup "Value" with
  | some (.str s) => decode s
  | _ => none

/-- `load_registry`: accumulates the decodable entries over all pages;
total — no failure aborts the scan. -/
def load_registry (decode : String → Option Json) (pages : List (List Json)) :
    List Json :=
  pages.foldl (fun entries page => entries ++ page.filterMap (parseParam decode)) []

/-! ## `mcp_remote_toolsets/proxies.py` — retried transport and proxy builder -/

/-- Outcome of one transport attempt of `_invoke_lambda`'s body (the boto
`invoke` plus decoding the payload): a decoded response, or a raised
transport-level exception with its message. -/
inductive TransportOutcome where
  | ok (resp : Json) : TransportOutcome
  | err (msg : String) : TransportOutcome

/-- tenacity's `wait_exponential(multiplier=0.2, min=0.2, max=2)` (modelled
from the tenacity library, which is outside this repository): the wait
after attempt number `n` is `multiplier * 2 ^ n` clamped to
`[max 0 min, max]`. -/
def wait_exponential (attemptNumber : ℕ) : ℚ :=
  max (max 0 (1/5)) (min ((1/5) * 2 ^ attemptNumber) 2)

/-- `@retry(wait=wait_exponential(...), stop=stop_after_attempt(3))` applied
to `_invoke_lambda`: up to 3 attempts, sleeping `wait_exponential n` after
failed attempt `n`; after the third failure tenacity raises (`RetryError`
around the last exception — modelled by its message).  `attempts` is the
oracle of successive attempt outcomes (attempt numbers start at 1).
Returns (outcome, number of attempts made, sleeps performed). -/
def invoke_lambda_retried (attempts : ℕ → TransportOutcome) :
    Except String Json × ℕ × List ℚ :=
  match attempts 1 with
  | .ok resp => (.ok resp, 1, [])
  | .err _ =>
    match attempts 2 with
    | .ok resp => (.ok resp, 2, [wait_exponential 1])
    | .err _ =>
      match attempts 3 with
      | .ok resp => (.ok resp, 3, [wait_exponential 1, wait_exponential 2])
      | .err msg => (.error msg, 3, [wait_exponential 1, wait_exponential 2])

/-- The envelope a proxy sends:
`{"action": "invoke", "method": method, "params": kwargs}`. -/
def invokePayload (method : String) (kwargs : Json) : Json :=
  .obj [("action", .str "invoke"), ("method", .str method), ("params", kwargs)]

/-- The body of a generated proxy (`_call` in `make_proxy`):

```python
resp = _invoke_lambda(function_arn, {"action": "invoke", "method": method, "params": kwargs})
if "error" in resp:
    err = resp["error"]
    raise RuntimeError(f"{err.get('type')}: {err.get('message')}")
return resp.get("result")
```

`transport payload n` is the outcome of the `n`-th attempt at delivering
`payload`.  Returns (result or raised error message, transport attempts
made, sleeps performed). -/
def proxy_call (transport : Json → ℕ → TransportOutcome) (method : String)
    (kwargs : Json) : Except String Json × ℕ × List ℚ :=
  match invoke_lambda_retried (transport (invokePayload method kwargs)) with
  | (.error m, n, ws) => (.error m, n, ws)
  | (.ok resp, n, ws) =>
    if resp.hasKey "error" then
      match resp.getD "error" .null with
      | .obj errFields =>
        let err := Json.obj errFields
        (.error ((err.getD "type" .null).pyStr ++ ": " ++
                 (err.getD "message" .null).pyStr), n, ws)
      | _ => (.error "AttributeError", n, ws)   -- `err.get` on a non-dict
    else
      (.ok (resp.getD "result" .null), n, ws)

/-- The binding of one generated proxy callable (`make_proxy(alias_arn,
method_name)` plus the `__name__` / `__doc__` it is given; the
introspectable `__signature__` metadata is not modelled). -/
structure RemoteProxy where
  function_arn : Json
  method : String
  doc : String
  deriving DecidableEq, Repr

/-- `entry.get("alias_arn") or entry.get("lambda_function_arn")`: Python
`or` falls through on a falsy first operand. -/
def endpointRef (entry : Json) : Json :=
  let a := entry.getD "alias_arn" .null
  if a.truthy then a else entry.getD "lambda_function_arn" .null

/-- Python dict assignment `d[k] = v`: replaces in place when the key is
present, appends otherwise. -/
def dictInsert (d : List (String × RemoteProxy)) (k : String) (v : RemoteProxy) :
    List (String × RemoteProxy) :=
  if d.any (fun p => p.1 = k) then
    d.map (fun p => if p.1 = k then (k, v) else p)
  else d ++ [(k, v)]

/-- Dict lookup on the built proxy mapping. -/
def lookupProxy (d : List (String × RemoteProxy)) (k : String) : Option RemoteProxy :=
  (d.find? (fun p => p.1 = k)).map (fun p => p.2)

/-- The (key, proxy) pairs one directory entry contributes, in manifest
order (one per advertised tool):

```python
manifest = _invoke_lambda(alias_arn, {"action": "describe_tools"})
tools = manifest.get("result", {}).get("tools", [])
for t in tools:
    method_name = t["name"]
    doc = t.get("doc", "")
    proxies[f"{toolset_name}.{method_name}"] = make_proxy(alias_arn, method_name)
```

`transport arn payload` is the (already retried) `_invoke_lambda`;
`.error` = an exception propagating out of the entry's processing
(transport exhaustion, `.get` on a non-dict `result`, a non-list `tools`,
`t["name"]` missing or unusable as a function name). -/
def entryPairs (transport : Json → Json → Except String Json) (entry : Json) :
    Except String (List (String × RemoteProxy)) := do
  let aliasArn := endpointRef entry
  let toolsetName := (entry.getD "name" (.str "unknown")).pyStr
  let manifest ← transport aliasArn (.obj [("action", .str "describe_tools")])
  let res := manifest.getD "result" (.obj [])
  let tools ← match res with
    | .obj _ => pure (res.getD "tools" (.arr []))
    | _ => .error "AttributeError"
  let toolList ← match tools with
    | .arr ts => pure ts
    | _ => .error "TypeError"
  toolList.mapM (fun t => do
    let methodName ← match t.lookup "name" with
      | some (.str s) => pure s
      | _ => .error "KeyError"
    let doc := (t.getD "doc" (.str "")).pyStr
    pure (toolsetName ++ "." ++ methodName,
          { function_arn := aliasArn, method := methodName, doc := doc :
            RemoteProxy }))

/-- `load_toolset_proxies(entries)`: builds the proxy dict by performing,
for each entry in order, each of its `proxies[key] = proxy` assignments. -/
def load_toolset_proxies (transport : Json → Json → Except String Json)
    (entries : List Json) : Except String (List (String × RemoteProxy)) :=
  entries.foldlM (fun proxies entry => do
    let pairs ← entryPairs transport entry
    pure (pairs.foldl (fun d p => dictInsert d p.1 p.2) proxies)) []

/-- All (key, proxy) assignments the build performs, in order, without the
dict overwrite semantics. -/
def advertisedPairs (transport : Json → Json → Except String Json)
    (entries : List Json) : Except String (List (String × RemoteProxy)) :=
  entries.foldlM (fun pairs entry => do
    let ps ← entryPairs transport entry
    pure (pairs ++ ps)) []

/-! ## Per-thread `ContextVar` storage (for the concurrency claim)

Python `contextvars` gives every thread (and every task) its own storage
for a `ContextVar`; `ContextVar.set` writes only the calling execution
context's slot.  A concurrent execution is an interleaving (a list) of the
context writes the running dispatches perform. -/

/-- The `ContextVar`'s storage across execution contexts: thread id ↦ the
value stored in that thread's context. -/
def CtxStore := ℕ → RequestContext

/-- Before any dispatch: every thread reads the `ContextVar` default. -/
def initialCtxStore : CtxStore := fun _ => defaultRequestContext

/-- One context write: thread `tid` calls `set_request_context ctx`. -/
inductive CtxAction where
  | set (tid : ℕ) (ctx : RequestContext) : CtxAction
  deriving DecidableEq, Repr

/-- The thread performing an action. -/
def CtxAction.tid : CtxAction → ℕ
  | .set t _ => t

/-- Effect of one action: only the acting thread's slot changes. -/
def runCtxAction (st : CtxStore) : CtxAction → CtxStore
  | .set tid ctx => fun t => if t = tid then set_request_context (st tid) ctx else st t

/-- Effect of an interleaved schedule of context writes. -/
def runCtxActions (l : List CtxAction) (st : CtxStore) : CtxStore :=
  l.foldl runCtxAction st

/-- `get_user_jwt()` executed on thread `tid`. -/
def readJwtAt (st : CtxStore) (tid : ℕ) : String :=
  get_user_jwt (st tid)

/-- The one context write the dispatch handler performs, on thread `tid`,
when it starts handling `event`:
`set_request_context(RequestContext(user_jwt=extractUserJwt(event)))`. -/
def dispatchCtxWrite (tid : ℕ) (event : Json) : CtxAction :=
  .set tid { user_jwt := extractUserJwt event }

/-- A well-formed `ResponseEnvelope`: a `result` member with no `error`
member, or an `error` member `{type: string, message: string}` with no
`result` member — never both. -/
def wellFormedEnvelope (resp : Json) : Prop :=
  (∃ r, resp.lookup "result" = some r ∧ resp.lookup "error" = none) ∨
  (resp.lookup "result" = none ∧
    ∃ t m, resp.lookup "error" = some (.obj [("type", .str t), ("message", .str m)]))

/-- Test fixture: a tool whose implementation raises (`.error` = the
exception's `str(e)`). -/
def boomSpec : ToolSpec :=
  { name := "boom", doc := "Always raises.",
    params_schema := .obj [("type", .str "object")],
    result_schema := .obj [("type", .str "object")],
    validate := fun _ => .ok (.obj []),
    func := fun _ _ => .error "boom failed",
    resultOk := fun _ => true }

/-- Test fixture: a registry holding only the raising tool. -/
def boomRegistry : ToolRegistry := { tools := [("boom", boomSpec)] }

/-- Test fixture: a registry holding only `whoami`. -/
def whoamiOnlyRegistry : ToolRegistry := { tools := [("whoami", whoamiSpec)] }

/-- Test fixture for the directory reader: a decoder accepting exactly the
string `"ok-entry"` (models `json.loads` succeeding on one stored value and
raising on every other). -/
def decodeFixture : String → Option Json :=
  fun s => if s = "ok-entry" then some (.obj [("name", .str "math")]) else none

/-! ## Helper lemmas on the dispatch handler -/

theorem handler_snd (reg : ToolRegistry) (nowIso : String) (event : Json)
    (st : RequestContext) :
    (handler reg nowIso event st).2 = { user_jwt := extractUserJwt event } := by
  simp only [handler, set_request_context]
  cases handlerCore reg nowIso ({ user_jwt := extractUserJwt event } : RequestContext).user_jwt event with
  | ok r => rfl
  | error e => cases e <;> rfl

theorem handler_fst_ok (reg : ToolRegistry) (nowIso : String) (event : Json)
    (st : RequestContext) (r : Json)
    (h : handlerCore reg nowIso (extractUserJwt event) event = .ok r) :
    (handler reg nowIso event st).1 = responseOk r := by
  simp only [handler, set_request_context]
  rw [h]

theorem handler_fst_rpc (reg : ToolRegistry) (nowIso : String) (event : Json)
    (st : RequestContext) (t m : String)
    (h : handlerCore reg nowIso (extractUserJwt event) event = .error (.rpc t m)) :
    (handler reg nowIso event st).1 = responseErr t m := by
  simp only [handler, set_request_context]
  rw [h]

theorem handler_fst_py (reg : ToolRegistry) (nowIso : String) (event : Json)
    (st : RequestContext) (m : String)
    (h : handlerCore reg nowIso (extractUserJwt event) event = .error (.py m)) :
    (handler reg nowIso event st).1 = responseErr "InternalError" m := by
  simp only [handler, set_request_context]
  rw [h]

theorem lookup_responseOk_result (r : Json) : (responseOk r).lookup "result" = some r := rfl

theorem lookup_responseOk_error (r : Json) : (responseOk r).lookup "error" = none := rfl

theorem lookup_responseErr_error (t m : String) :
    (responseErr t m).lookup "error" =
      some (.obj [("type", .str t), ("message", .str m)]) := rfl

theorem lookup_responseErr_result (t m : String) :
    (responseErr t m).lookup "result" = none := rfl

theorem handlerCore_invoke (reg : ToolRegistry) (nowIso jwt : String) (event : Json)
    (method : String) (spec : ToolSpec) (rawFields : List (String × Json))
    (ha : event.getD "action" .null = .str "invoke")
    (hm : event.getD "method" .null = .str method)
    (hspec : reg.get_tool method = .ok spec)
    (hp : event.getD "params" (.obj []) = .obj rawFields) :
    handlerCore reg nowIso jwt event =
      match spec.validate (.obj rawFields) with
      | .error diagnostics => .error (.rpc "ValidationError" diagnostics)
      | .ok validated =>
        match spec.func jwt validated with
        | .error exnMsg => .error (.py exnMsg)
        | .ok result =>
          if spec.resultOk result then .ok result
          else .error (.rpc "InternalError" "Tool returned wrong result type") := by
  simp only [handlerCore, ha, hm, hspec, hp, reduceIte]
  rw [if_neg (show ¬(Json.str "invoke" = Json.str "describe_tools") from by decide)]

theorem get_tool_eq_error_of_hasName_false (r : ToolRegistry) (m : String)
    (h : r.hasName m = false) :
    r.get_tool m = .error ("\x27" ++ m ++ "\x27") := by
  unfold ToolRegistry.get_tool
  have hn : r.tools.find? (fun p => p.1 = m) = none := by
    rw [List.find?_eq_none]
    rw [ToolRegistry.hasName, List.any_eq_false] at h
    exact fun p hp => h p hp
  rw [hn]

theorem handlerCore_unknown_method (reg : ToolRegistry) (nowIso jwt : String)
    (event : Json) (method : String)
    (ha : event.getD "action" .null = .str "invoke")
    (hm : event.getD "method" .null = .str method)
    (habs : reg.hasName method = false) :
    handlerCore reg nowIso jwt event = .error (.py ("\x27" ++ method ++ "\x27")) := by
  simp only [handlerCore, ha, hm, get_tool_eq_error_of_hasName_false reg method habs, reduceIte]
  rw [if_neg (show ¬(Json.str "invoke" = Json.str "describe_tools") from by decide)]

theorem handlerCore_bad_method (reg : ToolRegistry) (nowIso jwt : String) (event : Json)
    (ha : event.getD "action" .null = .str "invoke")
    (hm : ∀ s, event.getD "method" .null ≠ .str s) :
    handlerCore reg nowIso jwt event =
      .error (.rpc "BadRequest" "\x27method\x27 must be a string") := by
  cases hM : event.getD "method" .null with
  | str s => exact absurd hM (hm s)
  | null =>
    simp only [handlerCore, ha, hM, reduceIte]
    rw [if_neg (show ¬(Json.str "invoke" = Json.str "describe_tools") from by decide)]
  | bool b =>
    simp only [handlerCore, ha, hM, reduceIte]
    rw [if_neg (show ¬(Json.str "invoke" = Json.str "describe_tools") from by decide)]
  | num q =>
    simp only [handlerCore, ha, hM, reduceIte]
    rw [if_neg (show ¬(Json.str "invoke" = Json.str "describe_tools") from by decide)]
  | arr elems =>
    simp only [handlerCore, ha, hM, reduceIte]
    rw [if_neg (show ¬(Json.str "invoke" = Json.str "describe_tools") from by decide)]
  | obj fields =>
    simp only [handlerCore, ha, hM, reduceIte]
    rw [if_neg (show ¬(Json.str "invoke" = Json.str "describe_tools") from by decide)]

theorem handlerCore_bad_params (reg : ToolRegistry) (nowIso jwt : String) (event : Json)
    (method : String) (spec : ToolSpec)
    (ha : event.getD "action" .null = .str "invoke")
    (hm : event.getD "method" .null = .str method)
    (hspec : reg.get_tool method = .ok spec)
    (hp : ∀ fs, event.getD "params" (.obj []) ≠ .obj fs) :
    handlerCore reg nowIso jwt event =
      .error (.rpc "BadRequest" "\x27params\x27 must be an object") := by
  cases hP : event.getD "params" (.obj []) with
  | obj fs => exact absurd hP (hp fs)
  | null =>
    simp only [handlerCore, ha, hm, hspec, hP, reduceIte]
    rw [if_neg (show ¬(Json.str "invoke" = Json.str "describe_tools") from by decide)]
  | bool b =>
    simp only [handlerCore, ha, hm, hspec, hP, reduceIte]
    rw [if_neg (show ¬(Json.str "invoke" = Json.str "describe_tools") from by decide)]
  | num q =>
    simp only [handlerCore, ha, hm, hspec, hP, reduceIte]
    rw [if_neg (show ¬(Json.str "invoke" = Json.str "describe_tools") from by decide)]
  | str s =>
    simp only [handlerCore, ha, hm, hspec, hP, reduceIte]
    rw [if_neg (show ¬(Json.str "invoke" = Json.str "describe_tools") from by decide)]
  | arr elems =>
    simp only [handlerCore, ha, hm, hspec, hP, reduceIte]
    rw [if_neg (show ¬(Json.str "invoke" = Json.str "describe_tools") from by decide)]

theorem handlerCore_unknown_action (reg : ToolRegistry) (nowIso jwt : String) (event : Json)
    (ha1 : event.getD "action" .null ≠ .str "describe_tools")
    (ha2 : event.getD "action" .null ≠ .str "invoke") :
    handlerCore reg nowIso jwt event = .error (.rpc "BadRequest" "Unknown action") := by
  simp only [handlerCore]
  rw [if_neg ha1, if_neg ha2]

/-! ## Claim theorems -/

/-- C1: an invoke request whose `method` names no registered tool is
answered with an `InternalError` envelope (the raw `KeyError` from
`ToolRegistry.get_tool` falls through to the generic `except Exception`
clause), NOT with `BadRequest` as the specification states — the error
message is Python's `str(KeyError(name))`, the method name in quotes. -/
theorem invoke_unknown_method_internal_error (reg : ToolRegistry)
    (nowIso : String) (st : RequestContext) (event : Json) (method : String)
    (ha : event.getD "action" .null = .str "invoke")
    (hm : event.getD "method" .null = .str method)
    (habs : reg.hasName method = false) :
    (handler reg nowIso event st).1 =
      responseErr "InternalError" ("\x27" ++ method ++ "\x27") := by
  exact handler_fst_py reg nowIso event st _
    (handlerCore_unknown_method reg nowIso (extractUserJwt event) event method ha hm habs)

/-- Witness for C1 at a concrete input: method `"nope"` against the math
registry. -/
theorem invoke_unknown_method_internal_error_witness :
    (handler mathRegistry "2026-10-12T00:00:00Z"
        (.obj [("action", .str "invoke"), ("method", .str "nope"), ("params", .obj [])])
        defaultRequestContext).1 =
      responseErr "InternalError" ("\x27" ++ "nope" ++ "\x27") :=
  invoke_unknown_method_internal_error mathRegistry "2026-10-12T00:00:00Z"
    defaultRequestContext
    (.obj [("action", .str "invoke"), ("method", .str "nope"), ("params", .obj [])])
    "nope" rfl rfl rfl

/-- C7: invoking a registered method with schema-conformant params returns
`{result: <the implementation's value on the validated params>}`. -/
theorem invoke_valid_returns_result (reg : ToolRegistry) (nowIso : String)
    (st : RequestContext) (event : Json) (method : String) (spec : ToolSpec)
    (rawFields : List (String × Json)) (validated result : Json)
    (ha : event.getD "action" .null = .str "invoke")
    (hm : event.getD "method" .null = .str method)
    (hspec : reg.get_tool method = .ok spec)
    (hp : event.getD "params" (.obj []) = .obj rawFields)
    (hval : spec.validate (.obj rawFields) = .ok validated)
    (hfunc : spec.func (extractUserJwt event) validated = .ok result)
    (hres : spec.resultOk result = true) :
    (handler reg nowIso event st).1 = responseOk result := by
  apply handler_fst_ok
  rw [handlerCore_invoke reg nowIso (extractUserJwt event) event method spec rawFields ha hm hspec hp]
  simp only [hval, hfunc, hres, reduceIte]

/-- Witness for C7: `add` on `{x: 2, y: 40}` yields `{"result":{"value":42}}`. -/
theorem invoke_valid_returns_result_witness :
    (handler mathRegistry "2026-10-12T00:00:00Z"
        (.obj [("action", .str "invoke"), ("method", .str "add"),
               ("params", .obj [("x", .num 2), ("y", .num 40)])])
        defaultRequestContext).1 =
      responseOk (.obj [("value", .num 42)]) := by
  rw [show ((42 : ℚ)) = 2 + 40 from by norm_num]
  exact invoke_valid_returns_result mathRegistry "2026-10-12T00:00:00Z"
    defaultRequestContext
    (.obj [("action", .str "invoke"), ("method", .str "add"),
           ("params", .obj [("x", .num 2), ("y", .num 40)])])
    "add" addSpec [("x", .num 2), ("y", .num 40)]
    (.obj [("x", .num 2), ("y", .num 40)]) (.obj [("value", .num (2 + 40))])
    rfl rfl rfl rfl rfl rfl rfl

/-- C2 counterexample: an invoke request with NO `params` member is not
rejected with `BadRequest`; `event.get("params", {})` substitutes the empty
object and dispatch proceeds (here all the way to a successful result). -/
theorem invoke_missing_params_not_bad_request :
    (handler mathRegistry "2026-10-12T00:00:00Z"
        (.obj [("action", .str "invoke"), ("method", .str "whoami")])
        defaultRequestContext).1 = responseOk (.obj [("user_jwt", .str "")]) ∧
    respErrorType (responseOk (.obj [("user_jwt", .str "")])) = none := by
  exact ⟨by decide, rfl⟩

/-- C2 amended: a missing or non-string `method` and a present-but-non-object
`params` are rejected with `BadRequest`; a MISSING `params`, however, is
treated as the empty object and dispatch proceeds to validation. -/
theorem invoke_envelope_type_checks :
    (∀ (reg : ToolRegistry) (nowIso : String) (st : RequestContext) (event : Json),
       event.getD "action" .null = .str "invoke" →
       (∀ s, event.getD "method" .null ≠ .str s) →
       (handler reg nowIso event st).1 =
         responseErr "BadRequest" "\x27method\x27 must be a string") ∧
    (∀ (reg : ToolRegistry) (nowIso : String) (st : RequestContext) (event : Json)
       (method : String) (spec : ToolSpec),
       event.getD "action" .null = .str "invoke" →
       event.getD "method" .null = .str method →
       reg.get_tool method = .ok spec →
       (∀ fs, event.getD "params" (.obj []) ≠ .obj fs) →
       (handler reg nowIso event st).1 =
         responseErr "BadRequest" "\x27params\x27 must be an object") ∧
    (∀ (reg : ToolRegistry) (nowIso : String) (st : RequestContext) (event : Json)
       (method : String) (spec : ToolSpec) (validated result : Json),
       event.getD "action" .null = .str "invoke" →
       event.getD "method" .null = .str method →
       reg.get_tool method = .ok spec →
       event.lookup "params" = none →
       spec.validate (.obj []) = .ok validated →
       spec.func (extractUserJwt event) validated = .ok result →
       spec.resultOk result = true →
       (handler reg nowIso event st).1 = responseOk result) := by
  refine ⟨?_, ?_, ?_⟩
  · intro reg nowIso st event ha hm
    exact handler_fst_rpc reg nowIso event st _ _
      (handlerCore_bad_method reg nowIso (extractUserJwt event) event ha hm)
  · intro reg nowIso st event method spec ha hm hspec hp
    exact handler_fst_rpc reg nowIso event st _ _
      (handlerCore_bad_params reg nowIso (extractUserJwt event) event method spec ha hm hspec hp)
  · intro reg nowIso st event method spec validated result ha hm hspec hnone hval hfunc hres
    have hp : event.getD "params" (.obj []) = .obj [] := by
      rw [Json.getD, hnone]; rfl
    apply handler_fst_ok
    rw [handlerCore_invoke reg nowIso (extractUserJwt event) event method spec [] ha hm hspec hp]
    simp only [hval, hfunc, hres, reduceIte]

/-- Witness for the amended C2: concrete instances of all three parts. -/
theorem invoke_envelope_type_checks_witness :
    (handler mathRegistry "2026-10-12T00:00:00Z"
        (.obj [("action", .str "invoke"), ("method", .num 3)])
        defaultRequestContext).1 =
      responseErr "BadRequest" "\x27method\x27 must be a string" ∧
    (handler mathRegistry "2026-10-12T00:00:00Z"
        (.obj [("action", .str "invoke"), ("method", .str "add"), ("params", .arr [])])
        defaultRequestContext).1 =
      responseErr "BadRequest" "\x27params\x27 must be an object" ∧
    (handler mathRegistry "2026-10-12T00:00:00Z"
        (.obj [("action", .str "invoke"), ("method", .str "whoami")])
        defaultRequestContext).1 = responseOk (.obj [("user_jwt", .str "")]) :=
  ⟨invoke_envelope_type_checks.1 mathRegistry "2026-10-12T00:00:00Z" defaultRequestContext
     (.obj [("action", .str "invoke"), ("method", .num 3)]) rfl
     (fun s h => by simp [Json.getD, Json.lookup] at h),
   invoke_envelope_type_checks.2.1 mathRegistry "2026-10-12T00:00:00Z" defaultRequestContext
     (.obj [("action", .str "invoke"), ("method", .str "add"), ("params", .arr [])])
     "add" addSpec rfl rfl rfl
     (fun fs h => by simp [Json.getD, Json.lookup] at h),
   invoke_envelope_type_checks.2.2 mathRegistry "2026-10-12T00:00:00Z" defaultRequestContext
     (.obj [("action", .str "invoke"), ("method", .str "whoami")])
     "whoami" whoamiSpec (.obj []) (.obj [("user_jwt", .str "")])
     rfl rfl rfl rfl rfl rfl rfl⟩

/-- C3: the dispatch handler is total and always returns exactly one
well-formed response envelope (a `result` member or an `error` member with
string `type` and `message`, never both); every exception that is not a
typed `RpcError` — including one raised by a tool implementation — is
converted to an `InternalError` envelope carrying the exception's message. -/
theorem handler_always_one_envelope :
    (∀ (reg : ToolRegistry) (nowIso : String) (event : Json) (st : RequestContext),
       wellFormedEnvelope (handler reg nowIso event st).1) ∧
    (∀ (reg : ToolRegistry) (nowIso : String) (event : Json) (st : RequestContext) (m : String),
       handlerCore reg nowIso (extractUserJwt event) event = .error (.py m) →
       (handler reg nowIso event st).1 = responseErr "InternalError" m) ∧
    (∀ (reg : ToolRegistry) (nowIso : String) (event : Json) (st : RequestContext)
       (method : String) (spec : ToolSpec) (rawFields : List (String × Json))
       (validated : Json) (exnMsg : String),
       event.getD "action" .null = .str "invoke" →
       event.getD "method" .null = .str method →
       reg.get_tool method = .ok spec →
       event.getD "params" (.obj []) = .obj rawFields →
       spec.validate (.obj rawFields) = .ok validated →
       spec.func (extractUserJwt event) validated = .error exnMsg →
       (handler reg nowIso event st).1 = responseErr "InternalError" exnMsg) := by
  refine ⟨?_, ?_, ?_⟩
  · intro reg nowIso event st
    cases h : handlerCore reg nowIso (extractUserJwt event) event with
    | ok r =>
      rw [handler_fst_ok reg nowIso event st r h]
      exact Or.inl ⟨r, lookup_responseOk_result r, lookup_responseOk_error r⟩
    | error e =>
      cases e with
      | rpc t m =>
        rw [handler_fst_rpc reg nowIso event st t m h]
        exact Or.inr ⟨lookup_responseErr_result t m, t, m, lookup_responseErr_error t m⟩
      | py m =>
        rw [handler_fst_py reg nowIso event st m h]
        exact Or.inr ⟨lookup_responseErr_result _ m, _, m, lookup_responseErr_error _ m⟩
  · intro reg nowIso event st m h
    exact handler_fst_py reg nowIso event st m h
  · intro reg nowIso event st method spec rawFields validated exnMsg ha hm hspec hp hval hfunc
    apply handler_fst_py
    rw [handlerCore_invoke reg nowIso (extractUserJwt event) event method spec rawFields ha hm hspec hp]
    simp only [hval, hfunc]

/-- Witness for C3: a tool implementation that raises is answered with an
`InternalError` envelope carrying the exception's message. -/
theorem handler_always_one_envelope_witness :
    (handler boomRegistry "2026-10-12T00:00:00Z"
        (.obj [("action", .str "invoke"), ("method", .str "boom"), ("params", .obj [])])
        defaultRequestContext).1 = responseErr "InternalError" "boom failed" :=
  handler_always_one_envelope.2.2 boomRegistry "2026-10-12T00:00:00Z"
    (.obj [("action", .str "invoke"), ("method", .str "boom"), ("params", .obj [])])
    defaultRequestContext "boom" boomSpec [] (.obj []) "boom failed"
    rfl rfl rfl rfl rfl rfl

/-- C4 counterexample: the invocation context is NOT discarded when the
response is produced.  After a dispatch carrying `user_jwt = "tok-a"`
completes, a read of `get_user_jwt` outside any dispatch still returns
`"tok-a"`, not the empty string. -/
theorem context_not_cleared_after_dispatch :
    get_user_jwt (handler mathRegistry "2026-10-12T00:00:00Z"
        (.obj [("action", .str "invoke"), ("method", .str "whoami"), ("params", .obj []),
               ("context", .obj [("user_jwt", .str "tok-a")])])
        defaultRequestContext).2 = "tok-a" ∧ ("tok-a" : String) ≠ "" := by
  exact ⟨by decide, by decide⟩

/-- C4 amended: the context is established fresh from the envelope before
dispatch (the post-call stored value is exactly the envelope's token,
independent of the previous state), but it is NOT cleared when the response
is produced; a read of the accessor returns the empty string only as long
as no dispatch has yet run in that execution context. -/
theorem context_established_fresh_not_cleared :
    (∀ (reg : ToolRegistry) (nowIso : String) (event : Json) (st : RequestContext),
       (handler reg nowIso event st).2 = { user_jwt := extractUserJwt event }) ∧
    get_user_jwt defaultRequestContext = "" := by
  exact ⟨handler_snd, rfl⟩

theorem find?_eq_none_of_hasName_false (r : ToolRegistry) (m : String)
    (h : r.hasName m = false) :
    r.tools.find? (fun p => p.1 = m) = none := by
  rw [List.find?_eq_none]
  rw [ToolRegistry.hasName, List.any_eq_false] at h
  exact fun p hp => h p hp

/-- C8: registering a name already present fails with the duplicate-tool
error and leaves the registry unchanged; registering a fresh name succeeds
and inserts exactly that one spec. -/
theorem register_duplicate_rejected_unchanged (r : ToolRegistry) (spec : ToolSpec) :
    (r.hasName spec.name = true →
       (r.registerRun spec).1 =
         .error ("Tool \x27" ++ spec.name ++ "\x27 already registered") ∧
       (r.registerRun spec).2 = r) ∧
    (r.hasName spec.name = false →
       (r.registerRun spec).1 = .ok () ∧
       (r.registerRun spec).2.tools = r.tools ++ [(spec.name, spec)] ∧
       (r.registerRun spec).2.get_tool spec.name = .ok spec ∧
       ∀ other, other ≠ spec.name →
         (r.registerRun spec).2.get_tool other = r.get_tool other) := by
  constructor
  · intro h
    constructor <;> simp [ToolRegistry.registerRun, h]
  · intro h
    have hn := find?_eq_none_of_hasName_false r spec.name h
    refine ⟨?_, ?_, ?_, ?_⟩
    · simp [ToolRegistry.registerRun, h]
    · simp [ToolRegistry.registerRun, h]
    · simp [ToolRegistry.registerRun, h, ToolRegistry.get_tool, List.find?_append, hn]
    · intro other hother
      simp [ToolRegistry.registerRun, h, ToolRegistry.get_tool, List.find?_append,
            List.find?, Ne.symm hother]

/-- Witness for C8: a duplicate `add` registration against the math
registry is rejected and leaves it unchanged; a fresh `add` registration
against a registry holding only `whoami` inserts exactly `add` and leaves
`whoami` untouched. -/
theorem register_duplicate_rejected_unchanged_witness :
    ((mathRegistry.registerRun addSpec).1 =
       .error ("Tool \x27" ++ "add" ++ "\x27 already registered") ∧
     (mathRegistry.registerRun addSpec).2 = mathRegistry) ∧
    ((whoamiOnlyRegistry.registerRun addSpec).2.get_tool "add" = .ok addSpec ∧
     (whoamiOnlyRegistry.registerRun addSpec).2.get_tool "whoami" =
       whoamiOnlyRegistry.get_tool "whoami") :=
  ⟨(register_duplicate_rejected_unchanged mathRegistry addSpec).1 rfl,
   ⟨((register_duplicate_rejected_unchanged whoamiOnlyRegistry addSpec).2 rfl).2.2.1,
    ((register_duplicate_rejected_unchanged whoamiOnlyRegistry addSpec).2 rfl).2.2.2
      "whoami" (by decide)⟩⟩

theorem load_registry_foldl_aux (decode : String → Option Json)
    (pages : List (List Json)) : ∀ init,
    pages.foldl (fun entries page => entries ++ page.filterMap (parseParam decode)) init =
      init ++ pages.flatten.filterMap (parseParam decode) := by
  induction pages with
  | nil => intro init; simp
  | cons page rest ih =>
    intro init
    simp only [List.foldl_cons, ih, List.flatten_cons, List.filterMap_append, List.append_assoc]

/-- C9: the directory reader returns exactly the entries whose stored
values decode, silently skipping every value that fails (it is a total
function — one corrupt entry never aborts the scan), and yields the empty
list when no entries exist; concretely, one corrupt entry next to one
valid entry yields exactly the valid entry. -/
theorem load_registry_skips_undecodable :
    (∀ (decode : String → Option Json) (pages : List (List Json)),
       load_registry decode pages = pages.flatten.filterMap (parseParam decode)) ∧
    (∀ decode, load_registry decode [] = []) ∧
    load_registry decodeFixture
        [[.obj [("Name", .str "/toolforest/dev/toolsets/corrupt"),
                ("Value", .str "corrupt-entry")],
          .obj [("Name", .str "/toolforest/dev/toolsets/math"),
                ("Value", .str "ok-entry")]]] =
      [.obj [("name", .str "math")]] := by
  refine ⟨?_, fun decode => rfl, by decide⟩
  intro decode pages
  rw [load_registry, load_registry_foldl_aux decode pages []]
  rfl

theorem runCtxActions_apply (l : List CtxAction) (t : ℕ) : ∀ st : CtxStore,
    runCtxActions l st t =
      (l.filter (fun a => a.tid = t)).foldl
        (fun v a => match a with | .set _ ctx => set_request_context v ctx) (st t) := by
  induction l with
  | nil => intro st; rfl
  | cons a rest ih =>
    intro st
    cases a with
    | set tid ctx =>
      have hstep : runCtxActions (.set tid ctx :: rest) st =
          runCtxActions rest (runCtxAction st (.set tid ctx)) := by
        simp [runCtxActions, List.foldl_cons]
      rw [hstep, ih (runCtxAction st (.set tid ctx))]
      by_cases h : tid = t
      · subst h
        simp [List.filter_cons, CtxAction.tid, runCtxAction, set_request_context]
      · simp [List.filter_cons, CtxAction.tid, runCtxAction, h, set_request_context,
              Ne.symm h]

theorem readJwtAt_of_single_write (l : List CtxAction) (t : ℕ) (ctx : RequestContext)
    (h : l.filter (fun a => a.tid = t) = [.set t ctx]) :
    readJwtAt (runCtxActions l initialCtxStore) t = ctx.user_jwt := by
  rw [readJwtAt, get_user_jwt, get_request_context, runCtxActions_apply l t initialCtxStore, h]
  rfl

theorem filter_of_prefix_single (l p : List CtxAction) (t : ℕ) (x : CtxAction)
    (hx : x.tid = t)
    (h : l.filter (fun a => a.tid = t) = [x]) (hp : p <+: l) (hmem : x ∈ p) :
    p.filter (fun a => a.tid = t) = [x] := by
  have h1 : p.filter (fun a => a.tid = t) <+: l.filter (fun a => a.tid = t) :=
    hp.filter _
  rw [h] at h1
  have hmem' : x ∈ p.filter (fun a => a.tid = t) :=
    List.mem_filter.mpr ⟨hmem, by simp [hx]⟩
  obtain ⟨ts, hts⟩ := h1
  cases hpf : p.filter (fun a => a.tid = t) with
  | nil => rw [hpf] at hmem'; cases hmem'
  | cons b bs =>
    rw [hpf] at hts
    have hb : b = x := by
      have := congrArg (fun l => l.head?) hts
      simpa using this
    have hbs : bs ++ ts = [] := by
      have := congrArg (fun l => l.tail) hts
      simpa using this
    have : bs = [] := (List.append_eq_nil.mp hbs).1
    rw [hb, this]

/-- C5: for every interleaving of the context writes of two concurrent
dispatches on distinct threads, a read of the ambient context performed on
either thread at any point after that thread's dispatch has established its
context (i.e. in any schedule prefix containing that thread's write)
returns exactly the token extracted from that dispatch's own envelope —
never the other dispatch's token.  (Python `contextvars` gives each
thread/task its own storage for the `ContextVar`; a dispatch's only context
write is `set_request_context(RequestContext(user_jwt=<token from its own
envelope>))`.) -/
theorem concurrent_dispatch_context_isolation (t1 t2 : ℕ) (env1 env2 : Json)
    (l : List CtxAction) (_hne : t1 ≠ t2)
    (h1 : l.filter (fun a => a.tid = t1) = [dispatchCtxWrite t1 env1])
    (h2 : l.filter (fun a => a.tid = t2) = [dispatchCtxWrite t2 env2]) :
    (∀ p, p <+: l → dispatchCtxWrite t1 env1 ∈ p →
       readJwtAt (runCtxActions p initialCtxStore) t1 = extractUserJwt env1) ∧
    (∀ p, p <+: l → dispatchCtxWrite t2 env2 ∈ p →
       readJwtAt (runCtxActions p initialCtxStore) t2 = extractUserJwt env2) := by
  constructor
  · intro p hp hmem
    exact readJwtAt_of_single_write p t1 { user_jwt := extractUserJwt env1 }
      (filter_of_prefix_single l p t1 (dispatchCtxWrite t1 env1) rfl h1 hp hmem)
  · intro p hp hmem
    exact readJwtAt_of_single_write p t2 { user_jwt := extractUserJwt env2 }
      (filter_of_prefix_single l p t2 (dispatchCtxWrite t2 env2) rfl h2 hp hmem)

/-- Witness for C5: two interleaved dispatches on threads 0 and 1 carrying
tokens `"tok-a"` and `"tok-b"`; each thread reads back its own token. -/
theorem concurrent_dispatch_context_isolation_witness :
    readJwtAt
      (runCtxActions
        [dispatchCtxWrite 0 (.obj [("context", .obj [("user_jwt", .str "tok-a")])]),
         dispatchCtxWrite 1 (.obj [("context", .obj [("user_jwt", .str "tok-b")])])]
        initialCtxStore) 0 = "tok-a" ∧
    readJwtAt
      (runCtxActions
        [dispatchCtxWrite 0 (.obj [("context", .obj [("user_jwt", .str "tok-a")])]),
         dispatchCtxWrite 1 (.obj [("context", .obj [("user_jwt", .str "tok-b")])])]
        initialCtxStore) 1 = "tok-b" := by
  have h := concurrent_dispatch_context_isolation 0 1
    (.obj [("context", .obj [("user_jwt", .str "tok-a")])])
    (.obj [("context", .obj [("user_jwt", .str "tok-b")])])
    [dispatchCtxWrite 0 (.obj [("context", .obj [("user_jwt", .str "tok-a")])]),
     dispatchCtxWrite 1 (.obj [("context", .obj [("user_jwt", .str "tok-b")])])]
    (by decide) (by decide) (by decide)
  exact ⟨h.1 _ List.prefix_rfl (by decide), h.2 _ List.prefix_rfl (by decide)⟩

theorem wait_exponential_eq_of_one_le (n : ℕ) (hn : 1 ≤ n) :
    wait_exponential n = min ((1/5 : ℚ) * 2 ^ n) 2 := by
  unfold wait_exponential
  have h2 : (2 : ℚ) ^ 1 ≤ 2 ^ n := pow_le_pow_right₀ (by norm_num) hn
  have hx : (2/5 : ℚ) ≤ (1/5) * 2 ^ n := by
    rw [pow_one] at h2
    linarith
  rw [max_eq_right (by norm_num : (0:ℚ) ≤ 1/5)]
  rw [max_eq_right]
  rcases le_total ((1/5 : ℚ) * 2 ^ n) 2 with h | h
  · rw [min_eq_left h]; linarith
  · rw [min_eq_right h]; norm_num

theorem wait_exponential_doubling (n : ℕ) (hn : 1 ≤ n) :
    wait_exponential (n + 1) = min 2 (2 * wait_exponential n) := by
  rw [wait_exponential_eq_of_one_le n hn,
      wait_exponential_eq_of_one_le (n + 1) (Nat.le_succ_of_le hn)]
  have hpow : (1/5 : ℚ) * 2 ^ (n + 1) = 2 * ((1/5) * 2 ^ n) := by
    rw [pow_succ]; ring
  rw [hpow]
  rcases le_total ((1/5 : ℚ) * 2 ^ n) 2 with h | h
  · rw [min_eq_left h, min_comm]
  · rw [min_eq_right h, min_eq_right (show (2:ℚ) ≤ 2 * (1/5 * 2 ^ n) by linarith)]
    norm_num

/-- C6: per remote proxy call, transport-level failures are retried up to 3
attempts total, with waits between attempts following tenacity's
exponential schedule (doubling, capped at 2); a response that arrives is
never retried: if it contains an `error` member the proxy raises an error
carrying the remote `type` and `message` after exactly one transport
attempt, and otherwise it returns the `result` payload exactly as
received. -/
theorem proxy_retry_and_error_semantics
    (transport : Json → ℕ → TransportOutcome) (method : String) (kwargs : Json) :
    (proxy_call transport method kwargs).2.1 ≤ 3 ∧
    (proxy_call transport method kwargs).2.2 =
      (List.range ((proxy_call transport method kwargs).2.1 - 1)).map
        (fun i => wait_exponential (i + 1)) ∧
    (∀ n, 1 ≤ n → wait_exponential (n + 1) = min 2 (2 * wait_exponential n)) ∧
    (∀ m1 m2, transport (invokePayload method kwargs) 1 = .err m1 →
       transport (invokePayload method kwargs) 2 = .err m2 →
       (proxy_call transport method kwargs).2.1 = 3) ∧
    (∀ resp, transport (invokePayload method kwargs) 1 = .ok resp →
       (proxy_call transport method kwargs).2.1 = 1 ∧
       (∀ errFields, resp.lookup "error" = some (.obj errFields) →
          (proxy_call transport method kwargs).1 =
            .error (((Json.obj errFields).getD "type" .null).pyStr ++ ": " ++
                    ((Json.obj errFields).getD "message" .null).pyStr)) ∧
       (∀ payload, resp.hasKey "error" = false → resp.lookup "result" = some payload →
          (proxy_call transport method kwargs).1 = .ok payload)) := by
  have hattempts : ∀ resp,
      transport (invokePayload method kwargs) 1 = .ok resp →
      proxy_call transport method kwargs =
        (if resp.hasKey "error" then
           match resp.getD "error" .null with
           | .obj errFields =>
             (.error (((Json.obj errFields).getD "type" .null).pyStr ++ ": " ++
                      ((Json.obj errFields).getD "message" .null).pyStr), 1, [])
           | _ => (.error "AttributeError", 1, [])
         else (.ok (resp.getD "result" .null), 1, [])) := by
    intro resp h1
    unfold proxy_call invoke_lambda_retried
    rw [h1]
  refine ⟨?_, ?_, wait_exponential_doubling, ?_, ?_⟩
  · unfold proxy_call invoke_lambda_retried
    cases h1 : transport (invokePayload method kwargs) 1 with
    | ok resp =>
      dsimp only
      split
      · split <;> norm_num
      · norm_num
    | err m1 =>
      cases h2 : transport (invokePayload method kwargs) 2 with
      | ok resp =>
        dsimp only
        split
        · split <;> norm_num
        · norm_num
      | err m2 =>
        cases h3 : transport (invokePayload method kwargs) 3 with
        | ok resp =>
          dsimp only
          split
          · split <;> norm_num
          · norm_num
        | err m3 => norm_num
  · unfold proxy_call invoke_lambda_retried
    cases h1 : transport (invokePayload method kwargs) 1 with
    | ok resp =>
      dsimp only
      split
      · split <;> rfl
      · rfl
    | err m1 =>
      cases h2 : transport (invokePayload method kwargs) 2 with
      | ok resp =>
        dsimp only
        split
        · split <;> rfl
        · rfl
      | err m2 =>
        cases h3 : transport (invokePayload method kwargs) 3 with
        | ok resp =>
          dsimp only
          split
          · split <;> rfl
          · rfl
        | err m3 => rfl
  · intro m1 m2 h1 h2
    unfold proxy_call invoke_lambda_retried
    rw [h1, h2]
    cases h3 : transport (invokePayload method kwargs) 3 with
    | ok resp =>
      dsimp only
      split
      · split <;> rfl
      · rfl
    | err m3 => rfl
  · intro resp h1
    refine ⟨?_, ?_, ?_⟩
    · rw [hattempts resp h1]
      split
      · split <;> rfl
      · rfl
    · intro errFields herr
      rw [hattempts resp h1]
      rw [if_pos (show resp.hasKey "error" = true by rw [Json.hasKey, herr]; rfl)]
      rw [show resp.getD "error" .null = .obj errFields by rw [Json.getD, herr]; rfl]
    · intro payload hnk hres
      rw [hattempts resp h1, if_neg (by rw [hnk]; exact Bool.false_ne_true)]
      rw [show resp.getD "result" .null = payload by rw [Json.getD, hres]; rfl]

/-- Witness for C6: a transport failing twice is attempted 3 times; the
wait after attempt 2 is double the wait after attempt 1 (capped at 2); an
`{error: {type, message}}` response is raised as `"type: message"` after a
single attempt; an error-free response returns its `result` payload. -/
theorem proxy_retry_and_error_semantics_witness :
    (proxy_call (fun _ n => if n = 1 then .err "timeout-1"
                  else if n = 2 then .err "timeout-2"
                  else .ok (.obj [("result", .obj [])])) "add" (.obj [])).2.1 = 3 ∧
    wait_exponential 2 = min 2 (2 * wait_exponential 1) ∧
    (proxy_call (fun _ _ => .ok (.obj [("error",
        .obj [("type", .str "ValidationError"), ("message", .str "m")])]))
      "add" (.obj [])).2.1 = 1 ∧
    (proxy_call (fun _ _ => .ok (.obj [("error",
        .obj [("type", .str "ValidationError"), ("message", .str "m")])]))
      "add" (.obj [])).1 = .error ("ValidationError" ++ ": " ++ "m") ∧
    (proxy_call (fun _ _ => .ok (.obj [("result", .str "payload")])) "add" (.obj [])).1 =
      .ok (.str "payload") := by
  refine ⟨?_, ?_, ?_, ?_, ?_⟩
  · exact (proxy_retry_and_error_semantics
      (fun _ n => if n = 1 then .err "timeout-1"
        else if n = 2 then .err "timeout-2"
        else .ok (.obj [("result", .obj [])])) "add" (.obj [])).2.2.2.1
      "timeout-1" "timeout-2" rfl rfl
  · exact (proxy_retry_and_error_semantics (fun _ _ => .ok .null) "add"
      (.obj [])).2.2.1 1 le_rfl
  · exact ((proxy_retry_and_error_semantics
      (fun _ _ => .ok (.obj [("error",
        .obj [("type", .str "ValidationError"), ("message", .str "m")])]))
      "add" (.obj [])).2.2.2.2
      (.obj [("error", .obj [("type", .str "ValidationError"), ("message", .str "m")])])
      rfl).1
  · exact ((proxy_retry_and_error_semantics
      (fun _ _ => .ok (.obj [("error",
        .obj [("type", .str "ValidationError"), ("message", .str "m")])]))
      "add" (.obj [])).2.2.2.2
      (.obj [("error", .obj [("type", .str "ValidationError"), ("message", .str "m")])])
      rfl).2.1 [("type", .str "ValidationError"), ("message", .str "m")] rfl
  · exact ((proxy_retry_and_error_semantics
      (fun _ _ => .ok (.obj [("result", .str "payload")]))
      "add" (.obj [])).2.2.2.2
      (.obj [("result", .str "payload")]) rfl).2.2 (.str "payload") rfl rfl

theorem find?_map_replace (d : List (String × RemoteProxy)) (k k' : String)
    (v : RemoteProxy) (hne : k' ≠ k) :
    (d.map (fun p => if p.1 = k then (k, v) else p)).find? (fun p => p.1 = k') =
      d.find? (fun p => p.1 = k') := by
  induction d with
  | nil => rfl
  | cons a d ih =>
    by_cases ha : a.1 = k
    · rw [List.map_cons, if_pos ha, List.find?_cons, List.find?_cons]
      rw [show (decide ((k, v).1 = k')) = false from
            decide_eq_false (fun hc => hne hc.symm)]
      rw [show (decide (a.1 = k')) = false from
            decide_eq_false (fun hc => hne (ha ▸ hc : k = k').symm)]
      exact ih
    · rw [List.map_cons, if_neg ha, List.find?_cons, List.find?_cons]
      cases hd : decide (a.1 = k') with
      | true => rfl
      | false => exact ih

theorem find?_map_replace_self (d : List (String × RemoteProxy)) (k : String)
    (v : RemoteProxy) (hany : d.any (fun p => p.1 = k) = true) :
    (d.map (fun p => if p.1 = k then (k, v) else p)).find? (fun p => p.1 = k) =
      some (k, v) := by
  induction d with
  | nil => cases hany
  | cons a d ih =>
    by_cases ha : a.1 = k
    · rw [List.map_cons, if_pos ha, List.find?_cons]
      rw [show (decide ((k, v).1 = k)) = true from decide_eq_true rfl]
    · have hany' : d.any (fun p => p.1 = k) = true := by
        rw [List.any_cons] at hany
        rcases Bool.or_eq_true_iff.mp hany with h | h
        · exact absurd (of_decide_eq_true h) ha
        · exact h
      rw [List.map_cons, if_neg ha, List.find?_cons]
      rw [show (decide (a.1 = k)) = false from decide_eq_false ha]
      exact ih hany'

theorem lookupProxy_dictInsert (d : List (String × RemoteProxy)) (k : String)
    (v : RemoteProxy) (k' : String) :
    lookupProxy (dictInsert d k v) k' = if k' = k then some v else lookupProxy d k' := by
  unfold dictInsert lookupProxy
  by_cases hany : d.any (fun p => p.1 = k)
  · rw [if_pos hany]
    by_cases hk : k' = k
    · subst hk
      rw [find?_map_replace_self d k' v hany, if_pos rfl]
      rfl
    · rw [if_neg hk, find?_map_replace d k k' v hk]
  · rw [if_neg hany, List.find?_append]
    by_cases hk : k' = k
    · subst hk
      have hnone : d.find? (fun p => p.1 = k') = none := by
        rw [List.find?_eq_none]
        intro p hp
        rw [Bool.not_eq_true, List.any_eq_false] at hany
        exact hany p hp
      rw [hnone, if_pos rfl]
      simp [List.find?_cons]
    · have hsingle : ([(k, v)] : List (String × RemoteProxy)).find?
          (fun p => p.1 = k') = none := by
        rw [List.find?_cons]
        rw [show (decide ((k, v).1 = k')) = false from
              decide_eq_false (fun hc => hk hc.symm)]
        rfl
      rw [hsingle, if_neg hk, Option.or_none]

theorem lookupProxy_foldl_dictInsert (pairs : List (String × RemoteProxy))
    (k : String) : ∀ d,
    lookupProxy (pairs.foldl (fun acc p => dictInsert acc p.1 p.2) d) k =
      match pairs.reverse.find? (fun p => p.1 = k) with
      | some q => some q.2
      | none => lookupProxy d k := by
  induction pairs with
  | nil => intro d; rfl
  | cons p ps ih =>
    intro d
    rw [List.foldl_cons, ih (dictInsert d p.1 p.2)]
    rw [List.reverse_cons, List.find?_append]
    cases hf : ps.reverse.find? (fun q => q.1 = k) with
    | some q => rfl
    | none =>
      rw [List.find?_cons]
      by_cases hk : p.1 = k
      · rw [show (decide (p.1 = k)) = true from decide_eq_true hk]
        rw [lookupProxy_dictInsert d p.1 p.2 k, if_pos hk.symm]
        rfl
      · rw [show (decide (p.1 = k)) = false from decide_eq_false hk]
        rw [lookupProxy_dictInsert d p.1 p.2 k,
            if_neg (fun hc => hk hc.symm)]
        rfl

theorem keys_dictInsert (d : List (String × RemoteProxy)) (k : String) (v : RemoteProxy) :
    (dictInsert d k v).map Prod.fst =
      if d.any (fun p => p.1 = k) then d.map Prod.fst else d.map Prod.fst ++ [k] := by
  unfold dictInsert
  by_cases hany : d.any (fun p => p.1 = k)
  · rw [if_pos hany, if_pos hany, List.map_map]
    apply List.map_congr_left
    intro p _
    by_cases hp : p.1 = k
    · simp [hp]
    · simp [hp]
  · rw [if_neg hany, if_neg hany, List.map_append]
    rfl

theorem nodupKeys_foldl_dictInsert (pairs : List (String × RemoteProxy)) : ∀ d,
    (d.map Prod.fst).Nodup →
    ((pairs.foldl (fun acc p => dictInsert acc p.1 p.2) d).map Prod.fst).Nodup := by
  induction pairs with
  | nil => exact fun d h => h
  | cons p ps ih =>
    intro d hd
    rw [List.foldl_cons]
    apply ih
    rw [keys_dictInsert]
    by_cases hany : d.any (fun q => q.1 = p.1)
    · rwa [if_pos hany]
    · rw [if_neg hany]
      refine List.Nodup.append hd (List.nodup_singleton p.1) ?_
      intro a ha hb
      rcases List.mem_map.mp ha with ⟨q, hq, hqa⟩
      rw [Bool.not_eq_true, List.any_eq_false] at hany
      have := hany q hq
      rw [List.mem_singleton] at hb
      exact this (by rw [hqa, hb]; exact decide_eq_true rfl)

theorem load_toolset_proxies_via_pairs (transport : Json → Json → Except String Json)
    (entries : List Json) : ∀ acc : List (String × RemoteProxy),
    entries.foldlM
      (fun (proxies : List (String × RemoteProxy)) (entry : Json) => do
        let pairs ← entryPairs transport entry
        pure (pairs.foldl (fun d (p : String × RemoteProxy) => dictInsert d p.1 p.2) proxies))
      (acc.foldl (fun d (p : String × RemoteProxy) => dictInsert d p.1 p.2) []) =
    (entries.foldlM
      (fun (pairs : List (String × RemoteProxy)) (entry : Json) => do
        let ps ← entryPairs transport entry
        pure (pairs ++ ps)) acc).map
      (fun (pairs : List (String × RemoteProxy)) =>
        pairs.foldl (fun d (p : String × RemoteProxy) => dictInsert d p.1 p.2) []) := by
  induction entries with
  | nil => intro acc; rfl
  | cons e rest ih =>
    intro acc
    rw [List.foldlM_cons, List.foldlM_cons]
    cases he : entryPairs transport e with
    | error msg => rfl
    | ok ps =>
      have h2 := ih (acc ++ ps)
      rw [show (acc ++ ps).foldl (fun d (p : String × RemoteProxy) => dictInsert d p.1 p.2) [] =
            ps.foldl (fun d (p : String × RemoteProxy) => dictInsert d p.1 p.2)
              (acc.foldl (fun d (p : String × RemoteProxy) => dictInsert d p.1 p.2) []) from
            List.foldl_append _ _ _ _] at h2
      exact h2

theorem load_toolset_proxies_eq_advertised (transport : Json → Json → Except String Json)
    (entries : List Json) :
    load_toolset_proxies transport entries =
      (advertisedPairs transport entries).map
        (fun (pairs : List (String × RemoteProxy)) =>
          pairs.foldl (fun d (p : String × RemoteProxy) => dictInsert d p.1 p.2) []) :=
  load_toolset_proxies_via_pairs transport entries []

/-- C10: when several directory entries advertise tools under the same
flattened `toolsetName.methodName` key, the proxy builder silently keeps
the proxy from the LATER entry (dict assignment overwrites): the returned
mapping has exactly one binding per key, and each key's binding is the one
from the last `(entry, tool)` advertisement producing that key. -/
theorem proxy_mapping_last_wins (transport : Json → Json → Except String Json)
    (entries : List Json) (ps pairs : List (String × RemoteProxy))
    (hload : load_toolset_proxies transport entries = .ok ps)
    (hpairs : advertisedPairs transport entries = .ok pairs) :
    (ps.map Prod.fst).Nodup ∧
    ∀ k, lookupProxy ps k =
      (pairs.reverse.find? (fun p => p.1 = k)).map (fun p => p.2) := by
  have h := load_toolset_proxies_eq_advertised transport entries
  rw [hload, hpairs] at h
  have hps : ps = pairs.foldl
      (fun d (p : String × RemoteProxy) => dictInsert d p.1 p.2) [] := by
    exact Except.ok.inj h
  subst hps
  constructor
  · exact nodupKeys_foldl_dictInsert pairs [] (by exact List.nodup_nil)
  · intro k
    rw [lookupProxy_foldl_dictInsert pairs k []]
    cases hf : pairs.reverse.find? (fun p => p.1 = k) with
    | some q => rfl
    | none => rfl

/-- Witness for C10: two entries both named `math`, with endpoint refs
`arn-A` and `arn-B`, each advertising a tool `add`; the final mapping binds
`math.add` to the later entry's endpoint `arn-B`. -/
theorem proxy_mapping_last_wins_witness :
    (([("math.add",
        ({ function_arn := .str "arn-B", method := "add", doc := "" } : RemoteProxy))] :
          List (String × RemoteProxy)).map Prod.fst).Nodup ∧
    lookupProxy
      [("math.add",
        ({ function_arn := .str "arn-B", method := "add", doc := "" } : RemoteProxy))]
      "math.add" =
      some { function_arn := .str "arn-B", method := "add", doc := "" } := by
  have h := proxy_mapping_last_wins
    (fun _ _ => .ok (.obj [("result",
      .obj [("tools", .arr [.obj [("name", .str "add"), ("doc", .str "")]])])]))
    [.obj [("name", .str "math"), ("alias_arn", .str "arn-A")],
     .obj [("name", .str "math"), ("alias_arn", .str "arn-B")]]
    [("math.add", { function_arn := .str "arn-B", method := "add", doc := "" })]
    [("math.add", { function_arn := .str "arn-A", method := "add", doc := "" }),
     ("math.add", { function_arn := .str "arn-B", method := "add", doc := "" })]
    rfl rfl
  exact ⟨h.1, by rw [h.2 "math.add"]; rfl⟩
